import Mathlib

/-!
Shallow embedding of the EduTech document ingestion & conversion pipeline
(`app/services/document_parser.py` and `app/services/document_conversion.py`),
together with theorems settling the specification claims about it.

Strings are manipulated as `List Char`; bytes are `Nat` values below 256.
Python regular-expression substitutions used by the source are modelled as
direct recursive scanners with the same observable behaviour (leftmost match,
greedy repetition) for the concrete patterns the source uses.
-/

namespace EduTech

instance {ε α : Type} [DecidableEq ε] [DecidableEq α] : DecidableEq (Except ε α) :=
  fun x y =>
    match x, y with
    | .error a, .error b =>
      if h : a = b then .isTrue (by rw [h])
      else .isFalse (fun he => h (by cases he; rfl))
    | .ok a, .ok b =>
      if h : a = b then .isTrue (by rw [h])
      else .isFalse (fun he => h (by cases he; rfl))
    | .error _, .ok _ => .isFalse (fun he => Except.noConfusion he)
    | .ok _, .error _ => .isFalse (fun he => Except.noConfusion he)

/-- Python `\s` on ASCII text: the whitespace characters recognised by
`str.strip`, `str.split` and the `\s` regex class. -/
def isPySpace (c : Char) : Bool :=
  c = ' ' ∨ c = '\t' ∨ c = '\n' ∨ c = '\r' ∨ c = '\x0b' ∨ c = '\x0c'

/-- Python `str.strip()` (ASCII whitespace). -/
def pyStrip (l : List Char) : List Char :=
  ((l.dropWhile isPySpace).reverse.dropWhile isPySpace).reverse

/-- Python `str.lower()` (ASCII case folding, as `Char.toLower`). -/
def pyLower (l : List Char) : List Char := l.map Char.toLower

/-- Python `str.title()`: a cased character starting a word is uppercased,
cased characters inside a word are lowercased.  The boolean argument records
whether the previous character was cased (an ASCII letter). -/
def pyTitleAux : Bool → List Char → List Char
  | _, [] => []
  | prevCased, c :: cs =>
    if c.isAlpha then
      (if prevCased then c.toLower else c.toUpper) :: pyTitleAux true cs
    else
      c :: pyTitleAux false cs

def pyTitle (l : List Char) : List Char := pyTitleAux false l

/-- One-pass scanner for run replacement: the boolean records whether the
previous character belonged to the current run (so a space is emitted only
at the first character of each run). -/
def collapseRunsAux (p : Char → Bool) : Bool → List Char → List Char
  | _, [] => []
  | inRun, c :: cs =>
    if p c then
      if inRun then collapseRunsAux p true cs
      else ' ' :: collapseRunsAux p true cs
    else c :: collapseRunsAux p false cs

/-- Replace each maximal run of characters satisfying `p` by a single space:
the effect of `re.sub(r * '[_-]+', ' ', s)` and `re.sub(r * '\s+', ' ', s)`
for the respective classes. -/
def collapseRuns (p : Char → Bool) (l : List Char) : List Char :=
  collapseRunsAux p false l

/-- Model of `PurePosixPath(s).name`: the component after the last slash. -/
def pyName (l : List Char) : List Char :=
  (l.reverse.takeWhile (· ≠ '/')).reverse

/-- Model of `PurePosixPath(s).stem` and `.suffix` of a path component: split at the
last dot, provided that dot is neither the first nor the last character of
the name; otherwise the stem is the whole name and the suffix is empty. -/
def pySplitExt (name : List Char) : List Char × List Char :=
  let k := (name.reverse.takeWhile (· ≠ '.')).length
  if 0 < k ∧ k + 1 < name.length then
    (name.take (name.length - k - 1), name.drop (name.length - k - 1))
  else (name, [])

/-- Model of `Path(s).suffix` as a Lean string. -/
def pySuffix (s : String) : String := ⟨(pySplitExt (pyName s.data)).2⟩

/-- Model of `Path(s).stem` as a Lean string. -/
def pyStem (s : String) : String := ⟨(pySplitExt (pyName s.data)).1⟩

/-- Model of `DocumentParserService.SUPPORTED_EXTENSIONS`. -/
def SUPPORTED_EXTENSIONS : List String := [".txt", ".md", ".markdown"]

/-- Model of `DocumentParserService.is_supported_format`: the extension of the FILE
PATH argument, lowercased, must be one of the supported extensions. -/
def is_supported_format (file_path : String) : Bool :=
  SUPPORTED_EXTENSIONS.contains ⟨pyLower (pySuffix file_path).data⟩

/-- Model of `DocumentParserService.extract_title_from_filename`: take the stem of the
file name, replace runs of `_`/`-` by single spaces, title-case, collapse
whitespace runs, strip; fall back to "Untitled Document" when empty. -/
def extract_title_from_filename (filename : String) : String :=
  let title := (pyStem filename).data
  let title := collapseRuns (fun c => c = '_' ∨ c = '-') title
  let title := pyTitle title
  let title := pyStrip (collapseRuns isPySpace title)
  if title = [] then "Untitled Document" else ⟨title⟩

/-! ### Content decoding (`read_file_content`) -/

/-- A UTF-8 continuation byte. -/
def isCont (b : Nat) : Bool := 0x80 ≤ b ∧ b ≤ 0xBF

/-- Admissible first continuation byte of a three-byte sequence, which
excludes overlong encodings (lead `0xE0`) and surrogates (lead `0xED`). -/
def cont1ok3 (b b1 : Nat) : Bool :=
  if b = 0xE0 then 0xA0 ≤ b1 ∧ b1 ≤ 0xBF
  else if b = 0xED then 0x80 ≤ b1 ∧ b1 ≤ 0x9F
  else isCont b1

/-- Admissible first continuation byte of a four-byte sequence, which
excludes overlong encodings (lead `0xF0`) and code points above `0x10FFFF`
(lead `0xF4`). -/
def cont1ok4 (b b1 : Nat) : Bool :=
  if b = 0xF0 then 0x90 ≤ b1 ∧ b1 ≤ 0xBF
  else if b = 0xF4 then 0x80 ≤ b1 ∧ b1 ≤ 0x8F
  else isCont b1

/-- Decode the first UTF-8 sequence of a byte string: the scalar value and
the number of bytes consumed, or `none` if the head is not a well-formed
sequence (truncated, stray continuation byte, overlong, surrogate, or above
`0x10FFFF`).  Non-recursive. -/
def utf8First : List Nat → Option (Nat × Nat)
  | [] => none
  | b :: bs =>
    if b < 0x80 then some (b, 1)
    else if 0xC2 ≤ b ∧ b ≤ 0xDF then
      match bs with
      | b1 :: _ =>
        if isCont b1 then some ((b - 0xC0) * 64 + (b1 - 0x80), 2) else none
      | [] => none
    else if 0xE0 ≤ b ∧ b ≤ 0xEF then
      match bs with
      | b1 :: b2 :: _ =>
        if cont1ok3 b b1 ∧ isCont b2 then
          some ((b - 0xE0) * 4096 + (b1 - 0x80) * 64 + (b2 - 0x80), 3)
        else none
      | _ => none
    else if 0xF0 ≤ b ∧ b ≤ 0xF4 then
      match bs with
      | b1 :: b2 :: b3 :: _ =>
        if cont1ok4 b b1 ∧ isCont b2 ∧ isCont b3 then
          some ((b - 0xF0) * 262144 + (b1 - 0x80) * 4096 +
            (b2 - 0x80) * 64 + (b3 - 0x80), 4)
        else none
      | _ => none
    else none

/-- Strict UTF-8 decoding, one sequence at a time via `utf8First`, with a
fuel argument for structural recursion.  Each step consumes at least one
byte, so any fuel of at least the list's length gives the decoder's true
value; the fuel-exhausted branch is unreachable from `utf8Decode`. -/
def utf8DecodeAux : Nat → List Nat → Option (List Char)
  | _, [] => some []
  | 0, _ :: _ => none
  | fuel + 1, b :: bs =>
    match utf8First (b :: bs) with
    | none => none
    | some (cp, k) =>
      (utf8DecodeAux fuel (bs.drop (k - 1))).map (Char.ofNat cp :: ·)

/-- Strict UTF-8 decoding of a byte sequence, as Python's `utf-8` codec.
Returns `none` exactly when Python raises `UnicodeDecodeError`. -/
def utf8Decode (l : List Nat) : Option (List Char) :=
  utf8DecodeAux l.length l

/-- The UTF-8 byte-order mark. -/
def utf8BOM : List Nat := [0xEF, 0xBB, 0xBF]

/-- Python's `utf-8-sig` codec: strip a leading byte-order mark if present,
then decode as UTF-8. -/
def utf8SigDecode (bs : List Nat) : Option (List Char) :=
  if bs.take 3 = utf8BOM then utf8Decode (bs.drop 3) else utf8Decode bs

/-- Python's `latin1` codec: total on bytes, each byte is its code point. -/
def latin1Decode (bs : List Nat) : Option (List Char) :=
  some (bs.map Char.ofNat)

/-- One byte of Python's `cp1252` codec: bytes `0x80`–`0x9F` map through the
Windows-1252 table, with `0x81`, `0x8D`, `0x8F`, `0x90`, `0x9D` undefined;
all other bytes are their own code point. -/
def cp1252Byte (b : Nat) : Option Nat :=
  if b = 0x80 then some 0x20AC
  else if b = 0x81 then none
  else if b = 0x82 then some 0x201A
  else if b = 0x83 then some 0x0192
  else if b = 0x84 then some 0x201E
  else if b = 0x85 then some 0x2026
  else if b = 0x86 then some 0x2020
  else if b = 0x87 then some 0x2021
  else if b = 0x88 then some 0x02C6
  else if b = 0x89 then some 0x2030
  else if b = 0x8A then some 0x0160
  else if b = 0x8B then some 0x2039
  else if b = 0x8C then some 0x0152
  else if b = 0x8D then none
  else if b = 0x8E then some 0x017D
  else if b = 0x8F then none
  else if b = 0x90 then none
  else if b = 0x91 then some 0x2018
  else if b = 0x92 then some 0x2019
  else if b = 0x93 then some 0x201C
  else if b = 0x94 then some 0x201D
  else if b = 0x95 then some 0x2022
  else if b = 0x96 then some 0x2013
  else if b = 0x97 then some 0x2014
  else if b = 0x98 then some 0x02DC
  else if b = 0x99 then some 0x2122
  else if b = 0x9A then some 0x0161
  else if b = 0x9B then some 0x203A
  else if b = 0x9C then some 0x0153
  else if b = 0x9D then none
  else if b = 0x9E then some 0x017E
  else if b = 0x9F then some 0x0178
  else some b

/-- Python's `cp1252` codec on a byte sequence. -/
def cp1252Decode (bs : List Nat) : Option (List Char) :=
  (bs.mapM cp1252Byte).map (·.map Char.ofNat)

/-- Universal-newline translation performed by Python text-mode `open`:
`\r\n` and lone `\r` both become `\n`. -/
def univNewlines : List Char → List Char
  | [] => []
  | '\r' :: '\n' :: cs => '\n' :: univNewlines cs
  | '\r' :: cs => '\n' :: univNewlines cs
  | c :: cs => c :: univNewlines cs

/-- Model of `DocumentParserService.read_file_content`, with the file's bytes in
place of the file path: try the encodings `utf-8`, `utf-8-sig`, `latin1`,
`cp1252` in that order; the first decode that does not raise wins, and its
text is returned after text-mode newline translation.  If all four fail the
final `raise` is reached. -/
def read_file_content (bs : List Nat) : Except String String :=
  match utf8Decode bs with
  | some cs => .ok ⟨univNewlines cs⟩
  | none =>
    match utf8SigDecode bs with
    | some cs => .ok ⟨univNewlines cs⟩
    | none =>
      match latin1Decode bs with
      | some cs => .ok ⟨univNewlines cs⟩
      | none =>
        match cp1252Decode bs with
        | some cs => .ok ⟨univNewlines cs⟩
        | none => .error "Could not decode file with any supported encoding"

/-! ### Extractive summarizer (`generate_summary`) -/

/-- Scanner state for the multiline heading substitution: `text b` is
ordinary scanning (`b`: the current position is a line start), `hash` is
inside the matched run of `#`, `wsskip b` is inside the matched trailing
whitespace (`b`: the last consumed character was a newline, so the next
position is a line start). -/
inductive HeadState where
  | text : Bool → HeadState
  | hash : HeadState
  | wsskip : Bool → HeadState

/-- Model of `re.sub(r * '^#+\s*', '', content, flags=re.MULTILINE)` as a one-pass
automaton: at every line start, a run of `#` and any following whitespace
(which may span newlines, re-enabling `^`) is removed. -/
def subHeadingsAux : HeadState → List Char → List Char
  | _, [] => []
  | .text atStart, c :: cs =>
    if atStart ∧ c = '#' then subHeadingsAux .hash cs
    else c :: subHeadingsAux (.text (c = '\n')) cs
  | .hash, c :: cs =>
    if c = '#' then subHeadingsAux .hash cs
    else if isPySpace c then subHeadingsAux (.wsskip (c = '\n')) cs
    else c :: subHeadingsAux (.text (c = '\n')) cs
  | .wsskip lastNL, c :: cs =>
    if isPySpace c then subHeadingsAux (.wsskip (c = '\n')) cs
    else if lastNL ∧ c = '#' then subHeadingsAux .hash cs
    else c :: subHeadingsAux (.text (c = '\n')) cs

/-- The heading substitution on a whole text (position 0 is a line start). -/
def subHeadings (l : List Char) : List Char :=
  subHeadingsAux (.text true) l

/-- Model of `re.sub(r * '\*\*([^*]+)\*\*', group 1, s)` with a fuel argument for
structural recursion: each leftmost occurrence of a double star, a nonempty
run of non-star characters, and a closing double star is replaced by the
inner run.  Every recursive call is on a strictly shorter list, so any fuel
of at least the list's length gives the scanner's true value. -/
def subBoldAux : Nat → List Char → List Char
  | 0, l => l
  | fuel + 1, l =>
    match l with
    | c1 :: c2 :: cs =>
      if c1 = '*' ∧ c2 = '*' then
        let inner := cs.takeWhile (· ≠ '*')
        let rest := cs.dropWhile (· ≠ '*')
        if inner ≠ [] ∧ rest.take 2 = ['*', '*'] then
          inner ++ subBoldAux fuel (rest.drop 2)
        else c1 :: subBoldAux fuel (c2 :: cs)
      else c1 :: subBoldAux fuel (c2 :: cs)
    | l => l

def subBold (l : List Char) : List Char := subBoldAux l.length l

/-- Model of `re.sub(d ++ '([^d]+)' ++ d, group 1, s)` for a single-character
delimiter `d`, with a fuel argument for structural recursion: used for
`\*([^*]+)\*` (italic) and the backtick-delimited inline-code pattern. -/
def subInline1Aux (d : Char) : Nat → List Char → List Char
  | 0, l => l
  | fuel + 1, l =>
    match l with
    | [] => []
    | c :: cs =>
      if c = d then
        let inner := cs.takeWhile (· ≠ d)
        let rest := cs.dropWhile (· ≠ d)
        if inner ≠ [] ∧ rest ≠ [] then inner ++ subInline1Aux d fuel (rest.drop 1)
        else c :: subInline1Aux d fuel cs
      else c :: subInline1Aux d fuel cs

def subInline1 (d : Char) (l : List Char) : List Char := subInline1Aux d l.length l

/-- The backtick character (code point 96). -/
def backtickChar : Char := Char.ofNat 96

/-- The four markdown-stripping substitutions of `generate_summary`, in
source order: headings, bold, italic, inline code. -/
def markdownClean (l : List Char) : List Char :=
  subInline1 backtickChar (subInline1 '*' (subBold (subHeadings l)))

/-- A sentence-terminating character for `re.split(r * '[.!?]+', s)`. -/
def isSentSep (c : Char) : Bool := c = '.' ∨ c = '!' ∨ c = '?'

/-- Model of `re.split(r * '[.!?]+', s)` as a one-pass automaton.  With `inSep =
false`, `acc` holds the current piece reversed; with `inSep = true` the
scanner is inside a run of separators (the piece before it has been
emitted). -/
def splitRunsAux : Bool → List Char → List Char → List (List Char)
  | false, acc, [] => [acc.reverse]
  | false, acc, c :: cs =>
    if isSentSep c then acc.reverse :: splitRunsAux true [] cs
    else splitRunsAux false (c :: acc) cs
  | true, _, [] => [[]]
  | true, _, c :: cs =>
    if isSentSep c then splitRunsAux true [] cs
    else splitRunsAux false [c] cs

/-- Model of `re.split(r * '[.!?]+', s)`: the pieces between maximal runs of `.`,
`!`, `?` (empty pieces at the edges included, as in Python). -/
def splitSentenceRuns (l : List Char) : List (List Char) :=
  splitRunsAux false [] l

/-- The list comprehension of `generate_summary`: strip each fragment and
keep those that are nonempty and longer than 10 characters. -/
def meaningfulSentences (l : List Char) : List (List Char) :=
  ((splitSentenceRuns l).map pyStrip).filter (fun s => s ≠ [] ∧ 10 < s.length)

/-- Model of `DocumentParserService.generate_summary` (the Python default
`max_sentences=3` is passed explicitly by callers here): markdown-strip,
split into sentence fragments, keep the meaningful ones, join the first
`max_sentences` with `". "`, ensure a trailing period, cap at 500
characters. -/
def generate_summary (content : String) (max_sentences : Nat) : String :=
  if pyStrip content.data = [] then ""
  else
    let clean := markdownClean content.data
    let meaningful := meaningfulSentences clean
    if meaningful = [] then ""
    else
      let summary := List.intercalate ['.', ' '] (meaningful.take max_sentences)
      let summary :=
        if summary ≠ [] ∧ summary.getLast? ≠ some '.' then summary ++ ['.'] else summary
      ⟨summary.take 500⟩

/-! ### Parser entry point (`parse_document`) -/

/-- Model of `DocumentParserService.parse_document`, with the file system passed
explicitly as a partial map from paths to byte contents (`fs path = none`
models `os.path.exists(path)` being false).  Returns `(title, content,
summary)` or the message of the exception Python raises. -/
def parse_document (fs : String → Option (List Nat)) (file_path filename : String) :
    Except String (String × String × String) :=
  if ¬ is_supported_format file_path then
    .error ("Unsupported file format: " ++ pySuffix file_path)
  else
    match fs file_path with
    | none => .error ("File not found: " ++ file_path)
    | some bytes =>
      let title := extract_title_from_filename filename
      match read_file_content bytes with
      | .error e => .error e
      | .ok content =>
        if pyStrip content.data = [] then .error "Document content is empty"
        else .ok (title, content, generate_summary content 3)

/-! ### Data model (`app/models/document.py`, `lesson.py`, `category.py`)

Only the columns the conversion pipeline reads or writes are modelled;
timestamps are omitted.  Storage is a record of rows plus the next
auto-increment identifier for each table that gains rows here. -/

structure Document where
  id : Nat
  lesson_id : Nat
  original_filename : String
  file_type : String
  file_path : String
  converted : Bool
  converted_lesson_id : Option Nat
  conversion_error : Option String
deriving DecidableEq

structure Lesson where
  id : Nat
  user_id : Nat
  category_id : Option Nat
  title : String
  content : Option String
  summary : Option String
deriving DecidableEq

structure Category where
  id : Nat
  user_id : Nat
  name : String
  description : Option String
deriving DecidableEq

structure DB where
  documents : List Document
  lessons : List Lesson
  categories : List Category
  nextLessonId : Nat
  nextCategoryId : Nat
deriving DecidableEq

/-- Model of `DocumentConversionResult` (`app/schemas/document.py`): a tagged
outcome, `status="success"` carrying the new lesson id or `status="failed"`
carrying the error message. -/
inductive ConversionResult where
  | success (lesson_id : Nat)
  | failed (error : String)
deriving DecidableEq

/-- Model of `select(Document).where(Document.id == document_id)` with
`scalar_one_or_none()`. -/
def findDocument (db : DB) (document_id : Nat) : Option Document :=
  db.documents.find? (fun d => d.id == document_id)

/-- Model of `select(Lesson).where(Lesson.id == .., Lesson.user_id == ..)`. -/
def findLessonOwned (db : DB) (lesson_id user_id : Nat) : Option Lesson :=
  db.lessons.find? (fun l => l.id == lesson_id && l.user_id == user_id)

/-- Model of `select(Category).where(Category.id == .., Category.user_id == ..)`. -/
def findCategoryOwned (db : DB) (category_id user_id : Nat) : Option Category :=
  db.categories.find? (fun c => c.id == category_id && c.user_id == user_id)

/-- Model of `select(Category).where(Category.name == "Imported Documents",
Category.user_id == user_id)`. -/
def findImportedCategory (db : DB) (user_id : Nat) : Option Category :=
  db.categories.find? (fun c => c.name == "Imported Documents" && c.user_id == user_id)

/-- Committing a mutation of the fetched document row: every row with the
fetched id is replaced by its update (ids are unique in a well-formed
database). -/
def updateDocument (db : DB) (document_id : Nat) (f : Document → Document) : DB :=
  { db with documents := db.documents.map (fun d => if d.id == document_id then f d else d) }

/-- Model of `DocumentConversionService.get_or_create_default_category`: look up the
user's "Imported Documents" category; when absent, insert it (receiving the
next category id) and return the id either way. -/
def get_or_create_default_category (db : DB) (user_id : Nat) : DB × Nat :=
  match findImportedCategory db user_id with
  | some category => (db, category.id)
  | none =>
    let category : Category :=
      { id := db.nextCategoryId, user_id := user_id, name := "Imported Documents",
        description := some "Documents automatically converted to lessons" }
    ({ db with
        categories := db.categories ++ [category],
        nextCategoryId := db.nextCategoryId + 1 }, category.id)

/-- The category-resolution step of `convert_document_to_lesson` (the
`if not category_id` block).  Python's `not category_id` is true both for
`None` and for `0`, so both fall back to the default category, as does a
given id that does not belong to the acting user. -/
def resolve_category (db : DB) (user_id : Nat) (category_id : Option Nat) : DB × Nat :=
  match category_id with
  | none => get_or_create_default_category db user_id
  | some cid =>
    if cid = 0 then get_or_create_default_category db user_id
    else if (findCategoryOwned db cid user_id).isSome then (db, cid)
    else get_or_create_default_category db user_id

/-- Model of `DocumentConversionService.convert_document_to_lesson`.  The database
session is explicit state; the file system is the same partial map given to
`parse_document`.  Storage operations themselves are total here, so the
final catch-all `except` branch of the source (reachable only through a
storage failure) does not arise. -/
def convert_document_to_lesson (fs : String → Option (List Nat)) (db : DB)
    (document_id user_id : Nat) (category_id : Option Nat)
    (generate_summary_flag : Bool) : DB × ConversionResult :=
  match findDocument db document_id with
  | none => (db, .failed "Document not found")
  | some document =>
    if document.converted then (db, .failed "Document has already been converted")
    else
      match findLessonOwned db document.lesson_id user_id with
      | none => (db, .failed "Access denied or lesson not found")
      | some _original_lesson =>
        match parse_document fs document.file_path document.original_filename with
        | .error parseMsg =>
          let error_msg := "Failed to parse document: " ++ parseMsg
          (updateDocument db document.id
             (fun d => { d with conversion_error := some error_msg }),
           .failed error_msg)
        | .ok (title, content, summary) =>
          let resolved := resolve_category db user_id category_id
          let new_lesson : Lesson :=
            { id := resolved.1.nextLessonId, user_id := user_id,
              category_id := some resolved.2, title := title, content := some content,
              summary := if generate_summary_flag then some summary else none }
          let db2 : DB :=
            { resolved.1 with
                lessons := resolved.1.lessons ++ [new_lesson],
                nextLessonId := resolved.1.nextLessonId + 1 }
          let db3 := updateDocument db2 document.id
            (fun d => { d with
                          converted := true,
                          converted_lesson_id := some new_lesson.id,
                          conversion_error := none })
          (db3, .success new_lesson.id)

/-- The Document invariant of the specification's data model. -/
def documentInvariant (d : Document) : Prop :=
  (d.converted = true → d.converted_lesson_id.isSome ∧ d.conversion_error = none) ∧
  (d.conversion_error ≠ none → d.converted = false)

instance (d : Document) : Decidable (documentInvariant d) := by
  unfold documentInvariant
  infer_instance

/-- The user's "Imported Documents" categories currently in the store. -/
def importedCategories (db : DB) (user_id : Nat) : List Category :=
  db.categories.filter (fun c => c.name == "Imported Documents" && c.user_id == user_id)

/-! ### Concrete instances used to exercise the theorems -/

/-- The end-to-end scenario file of the specification (§8). -/
def exText : String := "# Intro\nHello world. This is a test. Another sentence here."

/-- Its byte content (ASCII, hence valid UTF-8). -/
def exBytes : List Nat := exText.data.map Char.toNat

def exPath : String := "uploads/lesson_1/lecture_notes.md"

/-- A file system holding exactly the scenario file. -/
def exFs : String → Option (List Nat) :=
  fun p => if p = exPath then some exBytes else none

/-- The scenario document `D1`, uploaded into lesson 1. -/
def exDoc : Document :=
  { id := 1, lesson_id := 1, original_filename := "lecture_notes.md",
    file_type := ".md", file_path := exPath, converted := false,
    converted_lesson_id := none, conversion_error := none }

/-- The container lesson the document was uploaded into, owned by user 7. -/
def exContainer : Lesson :=
  { id := 1, user_id := 7, category_id := none, title := "Placeholder",
    content := none, summary := none }

/-- The scenario database. -/
def exDB : DB :=
  { documents := [exDoc], lessons := [exContainer], categories := [],
    nextLessonId := 2, nextCategoryId := 1 }

/-- A file system with no files at all. -/
def fsEmpty : String → Option (List Nat) := fun _ => none

/-- A document that has already been converted. -/
def exDocDone : Document :=
  { id := 1, lesson_id := 1, original_filename := "lecture_notes.md",
    file_type := ".md", file_path := exPath, converted := true,
    converted_lesson_id := some 9, conversion_error := none }

def exDBDone : DB :=
  { documents := [exDocDone], lessons := [exContainer], categories := [],
    nextLessonId := 10, nextCategoryId := 1 }

/-- The scenario document after a failed attempt (stale error recorded). -/
def exDocErr : Document :=
  { id := 1, lesson_id := 1, original_filename := "lecture_notes.md",
    file_type := ".md", file_path := exPath, converted := false,
    converted_lesson_id := none,
    conversion_error :=
      some "Failed to parse document: File not found: uploads/lesson_1/lecture_notes.md" }

def exDBErr : DB :=
  { documents := [exDocErr], lessons := [exContainer], categories := [],
    nextLessonId := 2, nextCategoryId := 1 }

/-! ### Helper lemmas -/

theorem string_append_ne (p x t : String) (c : Char)
    (hp : p.data.head? = some c) (ht : t.data.head? ≠ some c) : p ++ x ≠ t := by
  intro he
  apply ht
  rw [← he]
  rcases p with ⟨pd⟩
  rcases pd with _ | ⟨a, as⟩
  · cases hp
  · rw [String.data_append]
    simpa using hp

theorem utf8DecodeAux_fuel : ∀ (fuel fuel' : Nat) (l : List Nat),
    l.length ≤ fuel → l.length ≤ fuel' →
    utf8DecodeAux fuel l = utf8DecodeAux fuel' l := by
  intro fuel
  induction fuel with
  | zero =>
    intro fuel' l h h'
    have : l = [] := List.length_eq_zero.mp (Nat.le_zero.mp h)
    subst this
    cases fuel' <;> rfl
  | succ f ih =>
    intro fuel' l h h'
    cases l with
    | nil => cases fuel' <;> rfl
    | cons b bs =>
      cases fuel' with
      | zero => simp at h'
      | succ f' =>
        rw [utf8DecodeAux, utf8DecodeAux]
        cases hu : utf8First (b :: bs) with
        | none => rfl
        | some pk =>
          rcases pk with ⟨cp, k⟩
          simp only [hu]
          have hlen : (bs.drop (k - 1)).length ≤ bs.length := by
            simp only [List.length_drop]
            omega
          have hbs : bs.length ≤ f := by simpa using h
          have hbs' : bs.length ≤ f' := by simpa using h'
          rw [ih f' (bs.drop (k - 1)) (le_trans hlen hbs) (le_trans hlen hbs')]

theorem utf8Decode_bom (r : List Nat) :
    utf8Decode (0xEF :: 0xBB :: 0xBF :: r) =
      (utf8Decode r).map (Char.ofNat 0xFEFF :: ·) := by
  show utf8DecodeAux (r.length + 2 + 1) (0xEF :: 0xBB :: 0xBF :: r) = _
  rw [utf8DecodeAux]
  rw [show utf8First (0xEF :: 0xBB :: 0xBF :: r) = some (0xFEFF, 3) from rfl]
  show (utf8DecodeAux (r.length + 2) r).map (Char.ofNat 0xFEFF :: ·) = _
  rw [utf8DecodeAux_fuel (r.length + 2) r.length r (by omega) (le_refl _)]
  rfl

theorem read_file_content_ok (bs : List Nat) :
    ∃ s, read_file_content bs = .ok s := by
  unfold read_file_content
  cases utf8Decode bs with
  | some cs => exact ⟨_, rfl⟩
  | none =>
    cases utf8SigDecode bs with
    | some cs => exact ⟨_, rfl⟩
    | none => exact ⟨_, rfl⟩

theorem find?_eq_head_filter {α : Type} (p : α → Bool) (l : List α) :
    l.find? p = (l.filter p).head? := by
  induction l with
  | nil => rfl
  | cons a l ih =>
    by_cases h : p a
    · rw [List.find?_cons_of_pos _ h, List.filter_cons_of_pos h]
      rfl
    · rw [List.find?_cons_of_neg _ h, List.filter_cons_of_neg h, ih]

theorem find?_id_map_update (l : List Document) (i : Nat) (f : Document → Document)
    (hf : ∀ d, (f d).id = d.id) :
    (l.map (fun d => if d.id == i then f d else d)).find? (fun d => d.id == i) =
      (l.find? (fun d => d.id == i)).map f := by
  induction l with
  | nil => rfl
  | cons d l ih =>
    by_cases h : (d.id == i) = true
    · have hfd : ((f d).id == i) = true := by rw [hf]; exact h
      rw [List.map_cons, if_pos h,
        List.find?_cons_of_pos (p := fun x : Document => x.id == i) _ hfd,
        List.find?_cons_of_pos (p := fun x : Document => x.id == i) _ h]
      rfl
    · rw [List.map_cons, if_neg h,
        List.find?_cons_of_neg (p := fun x : Document => x.id == i) _ h,
        List.find?_cons_of_neg (p := fun x : Document => x.id == i) _ h, ih]

theorem findDocument_updateDocument (db : DB) (i : Nat) (f : Document → Document)
    (hf : ∀ d, (f d).id = d.id) :
    findDocument (updateDocument db i f) i = (findDocument db i).map f := by
  unfold findDocument updateDocument
  exact find?_id_map_update db.documents i f hf

theorem updateDocument_lessons (db : DB) (i : Nat) (f : Document → Document) :
    (updateDocument db i f).lessons = db.lessons := rfl

theorem updateDocument_categories (db : DB) (i : Nat) (f : Document → Document) :
    (updateDocument db i f).categories = db.categories := rfl

theorem get_or_create_preserves (db : DB) (uid : Nat) :
    (get_or_create_default_category db uid).1.documents = db.documents ∧
    (get_or_create_default_category db uid).1.lessons = db.lessons ∧
    (get_or_create_default_category db uid).1.nextLessonId = db.nextLessonId := by
  unfold get_or_create_default_category
  cases findImportedCategory db uid <;> simp

theorem resolve_category_preserves (db : DB) (uid : Nat) (cid : Option Nat) :
    (resolve_category db uid cid).1.documents = db.documents ∧
    (resolve_category db uid cid).1.lessons = db.lessons ∧
    (resolve_category db uid cid).1.nextLessonId = db.nextLessonId := by
  rcases cid with _ | c
  · exact get_or_create_preserves db uid
  · simp only [resolve_category]
    split_ifs with h1 h2
    · exact get_or_create_preserves db uid
    · exact ⟨rfl, rfl, rfl⟩
    · exact get_or_create_preserves db uid

theorem findDocument_id (db : DB) (did : Nat) (document : Document)
    (h : findDocument db did = some document) : document.id = did := by
  have := List.find?_some h
  simpa using this

theorem findDocument_mem (db : DB) (did : Nat) (document : Document)
    (h : findDocument db did = some document) : document ∈ db.documents :=
  List.mem_of_find?_eq_some h

/-- The exact result of `convert_document_to_lesson` on the successful path. -/
theorem convert_success_eq (fs : String → Option (List Nat)) (db : DB)
    (did uid : Nat) (cid : Option Nat) (g : Bool) (document : Document)
    (lsn : Lesson) (t c s : String)
    (hdoc : findDocument db did = some document)
    (hconv : document.converted = false)
    (hown : findLessonOwned db document.lesson_id uid = some lsn)
    (hparse : parse_document fs document.file_path document.original_filename =
      .ok (t, c, s)) :
    convert_document_to_lesson fs db did uid cid g =
      (updateDocument
        { (resolve_category db uid cid).1 with
            lessons := (resolve_category db uid cid).1.lessons ++
              [{ id := (resolve_category db uid cid).1.nextLessonId, user_id := uid,
                 category_id := some (resolve_category db uid cid).2, title := t,
                 content := some c, summary := if g then some s else none }],
            nextLessonId := (resolve_category db uid cid).1.nextLessonId + 1 }
        document.id
        (fun d => { d with
                      converted := true,
                      converted_lesson_id :=
                        some (resolve_category db uid cid).1.nextLessonId,
                      conversion_error := none }),
       .success (resolve_category db uid cid).1.nextLessonId) := by
  unfold convert_document_to_lesson
  rw [hdoc]
  simp only [hconv, Bool.false_eq_true, if_false, hown, hparse]

/-- The exact result of `convert_document_to_lesson` when the parser fails. -/
theorem convert_parse_error_eq (fs : String → Option (List Nat)) (db : DB)
    (did uid : Nat) (cid : Option Nat) (g : Bool) (document : Document)
    (lsn : Lesson) (m : String)
    (hdoc : findDocument db did = some document)
    (hconv : document.converted = false)
    (hown : findLessonOwned db document.lesson_id uid = some lsn)
    (hparse : parse_document fs document.file_path document.original_filename =
      .error m) :
    convert_document_to_lesson fs db did uid cid g =
      (updateDocument db document.id
        (fun d => { d with conversion_error := some ("Failed to parse document: " ++ m) }),
       .failed ("Failed to parse document: " ++ m)) := by
  unfold convert_document_to_lesson
  rw [hdoc]
  simp only [hconv, Bool.false_eq_true, if_false, hown, hparse]

theorem convert_notfound_eq (fs : String → Option (List Nat)) (db : DB)
    (did uid : Nat) (cid : Option Nat) (g : Bool)
    (hdoc : findDocument db did = none) :
    convert_document_to_lesson fs db did uid cid g =
      (db, .failed "Document not found") := by
  unfold convert_document_to_lesson
  rw [hdoc]

theorem convert_already_eq (fs : String → Option (List Nat)) (db : DB)
    (did uid : Nat) (cid : Option Nat) (g : Bool) (document : Document)
    (hdoc : findDocument db did = some document)
    (hconv : document.converted = true) :
    convert_document_to_lesson fs db did uid cid g =
      (db, .failed "Document has already been converted") := by
  unfold convert_document_to_lesson
  rw [hdoc]
  simp [hconv]

theorem convert_denied_eq (fs : String → Option (List Nat)) (db : DB)
    (did uid : Nat) (cid : Option Nat) (g : Bool) (document : Document)
    (hdoc : findDocument db did = some document)
    (hconv : document.converted = false)
    (hown : findLessonOwned db document.lesson_id uid = none) :
    convert_document_to_lesson fs db did uid cid g =
      (db, .failed "Access denied or lesson not found") := by
  unfold convert_document_to_lesson
  rw [hdoc]
  simp only [hconv, Bool.false_eq_true, if_false, hown]

theorem findDocument_update_mark (db0 : DB) (i : Nat) (v : Bool) (w : Option Nat)
    (e : Option String) :
    findDocument (updateDocument db0 i
        (fun d => { d with
                      converted := v,
                      converted_lesson_id := w,
                      conversion_error := e })) i =
      (findDocument db0 i).map
        (fun d => { d with
                      converted := v,
                      converted_lesson_id := w,
                      conversion_error := e }) :=
  findDocument_updateDocument db0 i _ (fun _ => rfl)

theorem findDocument_update_err (db0 : DB) (i : Nat) (e : Option String) :
    findDocument (updateDocument db0 i (fun d => { d with conversion_error := e })) i =
      (findDocument db0 i).map (fun d => { d with conversion_error := e }) :=
  findDocument_updateDocument db0 i _ (fun _ => rfl)

theorem findDocument_big (db : DB) (uid : Nat) (cid : Option Nat)
    (ls : List Lesson) (n i : Nat) :
    findDocument
      { (resolve_category db uid cid).1 with lessons := ls, nextLessonId := n } i =
      findDocument db i := by
  unfold findDocument
  show ((resolve_category db uid cid).1.documents).find? _ = _
  rw [(resolve_category_preserves db uid cid).1]

/-- The observable effects of a successful conversion: result value, the
updated document, the lesson table, the category table. -/
theorem convert_success_post (fs : String → Option (List Nat)) (db : DB)
    (did uid : Nat) (cid : Option Nat) (g : Bool) (document : Document)
    (lsn : Lesson) (t c s : String)
    (hdoc : findDocument db did = some document)
    (hconv : document.converted = false)
    (hown : findLessonOwned db document.lesson_id uid = some lsn)
    (hparse : parse_document fs document.file_path document.original_filename =
      .ok (t, c, s)) :
    (convert_document_to_lesson fs db did uid cid g).2 =
      .success (resolve_category db uid cid).1.nextLessonId ∧
    findDocument (convert_document_to_lesson fs db did uid cid g).1 did =
      some { document with
               converted := true,
               converted_lesson_id := some (resolve_category db uid cid).1.nextLessonId,
               conversion_error := none } ∧
    (convert_document_to_lesson fs db did uid cid g).1.lessons =
      (resolve_category db uid cid).1.lessons ++
        [{ id := (resolve_category db uid cid).1.nextLessonId, user_id := uid,
           category_id := some (resolve_category db uid cid).2, title := t,
           content := some c, summary := if g then some s else none }] ∧
    (convert_document_to_lesson fs db did uid cid g).1.categories =
      (resolve_category db uid cid).1.categories := by
  have hid : document.id = did := findDocument_id db did document hdoc
  subst hid
  have heq := convert_success_eq fs db document.id uid cid g document lsn t c s
    hdoc hconv hown hparse
  rw [heq]
  refine ⟨rfl, ?_, rfl, rfl⟩
  dsimp only
  rw [findDocument_update_mark, findDocument_big, hdoc]
  rfl

theorem resolve_category_fallback (db : DB) (uid : Nat) (cid : Option Nat)
    (h : cid = none ∨ cid = some 0 ∨
      ∃ k, cid = some k ∧ findCategoryOwned db k uid = none) :
    resolve_category db uid cid = get_or_create_default_category db uid := by
  rcases h with rfl | rfl | ⟨k, rfl, hk⟩
  · rfl
  · simp [resolve_category]
  · simp only [resolve_category]
    split_ifs with h0 h1
    · rfl
    · rw [hk] at h1
      simp at h1
    · rfl

/-! ### Claim C5 -/

/-- C5 counterexample: the format check of `parse_document` reads the
extension of `file_path`, not of `file_name`.  For the pair
`("f.txt", "f.pdf")` on an empty file system, the file name's extension
`.pdf` is unsupported, so the claim demands `UnsupportedFormat`; the code
instead passes the format check and fails with the file-not-found error. -/
theorem parse_document_checks_path_not_name :
    (pyLower (pySuffix "f.pdf").data ∉ (SUPPORTED_EXTENSIONS.map String.data)) ∧
    parse_document (fun _ => none) "f.txt" "f.pdf" =
      .error "File not found: f.txt" := by
  constructor
  · decide
  · decide

/-- C5 (amended): for every `(file_path, file_name)` pair where the FILE
PATH's extension, compared case-insensitively, is not one of `.txt`, `.md`,
`.markdown`, `parse_document` fails with the unsupported-format error
before performing any file I/O: the result is the same for every file
system, in particular when no file exists at `file_path`. -/
theorem parse_document_unsupported_no_io (fs : String → Option (List Nat))
    (file_path filename : String)
    (h : is_supported_format file_path = false) :
    parse_document fs file_path filename =
      .error ("Unsupported file format: " ++ pySuffix file_path) := by
  unfold parse_document
  rw [h]
  simp

/-- C5 witness. -/
theorem parse_document_unsupported_no_io_witness :
    parse_document (fun _ => none) "slides.pptx" "slides.pptx" =
      .error ("Unsupported file format: " ++ pySuffix "slides.pptx") :=
  parse_document_unsupported_no_io (fun _ => none) "slides.pptx" "slides.pptx"
    (by decide)

/-! ### Claim C6 -/

/-- C6: for every supported, existing, decodable, non-blank file, the parse
succeeds; the title is computed solely from the file name by
`extract_title_from_filename` (stem, separator runs to spaces, title-case,
whitespace collapse, "Untitled Document" fallback) and does not depend on
the decoded content, so an in-content heading never overrides it; the
content is exactly the decoded file text; the summary is derived from the
content. -/
theorem parse_document_title_and_content (fs : String → Option (List Nat))
    (file_path filename : String) (bytes : List Nat) (content : String)
    (hfmt : is_supported_format file_path = true)
    (hfs : fs file_path = some bytes)
    (hread : read_file_content bytes = .ok content)
    (hne : pyStrip content.data ≠ []) :
    parse_document fs file_path filename =
      .ok (extract_title_from_filename filename, content,
        generate_summary content 3) := by
  unfold parse_document
  rw [hfmt]
  simp [hfs, hread, hne]

/-- C6 witness: the end-to-end scenario file `lecture_notes.md`. -/
theorem parse_document_title_and_content_witness :
    parse_document exFs exPath "lecture_notes.md" =
      .ok (extract_title_from_filename "lecture_notes.md", exText,
        generate_summary exText 3) ∧
    extract_title_from_filename "lecture_notes.md" = "Lecture Notes" :=
  ⟨parse_document_title_and_content exFs exPath "lecture_notes.md" exBytes exText
      (by decide) (by decide) (by decide) (by decide),
   by decide⟩

/-! ### Claim C7 -/

/-- C7: the encodings are tried in the fixed order `utf-8`, `utf-8-sig`,
`latin1`, `cp1252` and the first success wins, so a byte sequence that is
valid UTF-8 always decodes via UTF-8 (first conjunct), and one that is not
valid UTF-8 cannot decode via either UTF-8 variant (a BOM-prefixed
sequence whose tail fails UTF-8 also fails `utf-8-sig`) and falls through
to Latin-1 (second conjunct); the Latin-1 or CP1252 readings never
override a valid UTF-8 reading. -/
theorem read_file_content_utf8_precedence (bs : List Nat) :
    (∀ cs, utf8Decode bs = some cs →
      read_file_content bs = .ok ⟨univNewlines cs⟩) ∧
    (utf8Decode bs = none →
      read_file_content bs = .ok ⟨univNewlines (bs.map Char.ofNat)⟩) := by
  constructor
  · intro cs h
    unfold read_file_content
    rw [h]
  · intro h
    have hsig : utf8SigDecode bs = none := by
      unfold utf8SigDecode
      by_cases hbom : bs.take 3 = utf8BOM
      · rw [if_pos hbom]
        rcases bs with _ | ⟨a, _ | ⟨b, _ | ⟨c, r⟩⟩⟩
        · simp [utf8BOM] at hbom
        · simp [utf8BOM] at hbom
        · simp [utf8BOM] at hbom
        · have habc : a = 0xEF ∧ b = 0xBB ∧ c = 0xBF := by
            simpa [utf8BOM] using hbom
          obtain ⟨rfl, rfl, rfl⟩ := habc
          rw [utf8Decode_bom] at h
          exact Option.map_eq_none'.mp h
      · rw [if_neg hbom]
        exact h
    unfold read_file_content
    rw [h, hsig]
    rfl

/-- C7 witness: the bytes `C3 A9` are UTF-8 for `é`; Latin-1 would have
read them, without error, as two other characters. -/
theorem read_file_content_utf8_precedence_witness :
    read_file_content [0xC3, 0xA9] = .ok "é" ∧
    latin1Decode [0xC3, 0xA9] ≠ some "é".data := by
  constructor
  · rw [(read_file_content_utf8_precedence [0xC3, 0xA9]).1 "é".data (by decide)]
    decide
  · decide

/-! ### Claim C8 -/

/-- C8: Latin-1 accepts every byte, so decoding is total: every byte
sequence decodes under some encoding in the list, the final
"no supported encoding" branch of `read_file_content` is unreachable, and
`parse_document` never returns that decode-error message for any file
system and any arguments. -/
theorem decoding_total_no_decode_error (bs : List Nat)
    (hbytes : ∀ b ∈ bs, b < 256) :
    (∃ s, read_file_content bs = .ok s) ∧
    (∀ fs file_path filename,
      parse_document fs file_path filename ≠
        .error "Could not decode file with any supported encoding") := by
  refine ⟨read_file_content_ok bs, ?_⟩
  intro fs fp fn heq
  unfold parse_document at heq
  cases hf : is_supported_format fp with
  | false =>
    rw [hf] at heq
    rw [if_pos (by simp)] at heq
    injection heq with h
    exact string_append_ne "Unsupported file format: " (pySuffix fp) _ 'U'
      rfl (by decide) h
  | true =>
    rw [hf] at heq
    rw [if_neg (by simp)] at heq
    cases hfs : fs fp with
    | none =>
      rw [hfs] at heq
      injection heq with h
      exact string_append_ne "File not found: " fp _ 'F' rfl (by decide) h
    | some bytes2 =>
      rw [hfs] at heq
      obtain ⟨s, hs⟩ := read_file_content_ok bytes2
      simp only [hs] at heq
      by_cases hemp : pyStrip s.data = []
      · rw [if_pos hemp] at heq
        exact absurd heq (by decide)
      · rw [if_neg hemp] at heq
        exact Except.noConfusion heq

/-- C8 witness: `0x81` is invalid UTF-8 and undefined in CP1252, yet
decoding succeeds (via Latin-1). -/
theorem decoding_total_no_decode_error_witness :
    (∃ s, read_file_content [0x81, 0xFF] = .ok s) ∧
    parse_document (fun _ => some [0x81, 0xFF]) "notes.txt" "notes.txt" ≠
      .error "Could not decode file with any supported encoding" :=
  ⟨(decoding_total_no_decode_error [0x81, 0xFF] (by decide)).1,
   (decoding_total_no_decode_error [0x81, 0xFF] (by decide)).2 _ _ _⟩

/-! ### Claim C9 -/

/-- C9: the summarizer is total; blank input (empty or whitespace-only)
yields the empty string; the output never exceeds 500 characters for any
input; and on non-blank input the result is exactly: the first at-most
`max_sentences` trimmed fragments longer than 10 characters of the
markdown-stripped text split on `[.!?]` runs, joined with `". "`, a
trailing period appended if missing, truncated to 500 characters. -/
theorem generate_summary_spec :
    (∀ content max_sentences, pyStrip content.data = [] →
      generate_summary content max_sentences = "") ∧
    (∀ content max_sentences,
      (generate_summary content max_sentences).length ≤ 500) ∧
    (∀ content max_sentences, pyStrip content.data ≠ [] →
      generate_summary content max_sentences =
        (if meaningfulSentences (markdownClean content.data) = [] then ""
         else
           let summary := List.intercalate ['.', ' ']
             ((meaningfulSentences (markdownClean content.data)).take max_sentences)
           let summary :=
             if summary ≠ [] ∧ summary.getLast? ≠ some '.' then summary ++ ['.']
             else summary
           ⟨summary.take 500⟩)) := by
  refine ⟨?_, ?_, ?_⟩
  · intro content m h
    unfold generate_summary
    rw [if_pos h]
  · intro content m
    unfold generate_summary
    split
    · simp
    · dsimp only
      split
      · simp
      · show (List.take 500 _).length ≤ 500
        rw [List.length_take]
        exact Nat.min_le_left _ _
  · intro content m h
    unfold generate_summary
    rw [if_neg h]

/-- C9 witness. -/
theorem generate_summary_spec_witness :
    generate_summary "   " 3 = "" ∧
    (generate_summary "A. B. C. D." 3).length ≤ 500 ∧
    generate_summary
        "Hello world today. Second sentence is long. Third one also counts." 2 =
      "Hello world today. Second sentence is long." := by
  refine ⟨generate_summary_spec.1 "   " 3 (by decide),
    generate_summary_spec.2.1 "A. B. C. D." 3, ?_⟩
  rw [generate_summary_spec.2.2 _ 2 (by decide)]
  decide

/-! ### Claim C1 -/

/-- C1: for every document that exists, is not yet converted, whose
containing lesson belongs to the acting user, and whose file parses
successfully, the conversion returns `Success` with the id of a newly
created lesson (an id no existing lesson has) whose title and content are
the parser's outputs, whose summary is the parser's summary exactly when
`generate_summary` is true and null otherwise, and whose owner is the
acting user; and the document is updated to `converted = true`,
`converted_lesson_id = the new lesson's id`, `conversion_error = null`. -/
theorem convert_success_creates_lesson (fs : String → Option (List Nat)) (db : DB)
    (did uid : Nat) (cid : Option Nat) (g : Bool) (document : Document)
    (lsn : Lesson) (t c s : String)
    (hfresh : ∀ l ∈ db.lessons, l.id < db.nextLessonId)
    (hdoc : findDocument db did = some document)
    (hconv : document.converted = false)
    (hown : findLessonOwned db document.lesson_id uid = some lsn)
    (hparse : parse_document fs document.file_path document.original_filename =
      .ok (t, c, s)) :
    ∃ L,
      (convert_document_to_lesson fs db did uid cid g).2 = .success L ∧
      (∀ l ∈ db.lessons, l.id ≠ L) ∧
      (∃ nl, nl ∈ (convert_document_to_lesson fs db did uid cid g).1.lessons ∧
        nl.id = L ∧ nl.title = t ∧ nl.content = some c ∧
        nl.summary = (if g then some s else none) ∧ nl.user_id = uid) ∧
      findDocument (convert_document_to_lesson fs db did uid cid g).1 did =
        some { document with
                 converted := true, converted_lesson_id := some L,
                 conversion_error := none } := by
  obtain ⟨hres, hfind, hless, hcats⟩ :=
    convert_success_post fs db did uid cid g document lsn t c s hdoc hconv hown hparse
  refine ⟨(resolve_category db uid cid).1.nextLessonId, hres, ?_, ?_, hfind⟩
  · intro l hl
    rw [(resolve_category_preserves db uid cid).2.2]
    exact Nat.ne_of_lt (hfresh l hl)
  · exact ⟨{ id := (resolve_category db uid cid).1.nextLessonId, user_id := uid,
             category_id := some (resolve_category db uid cid).2, title := t,
             content := some c, summary := if g then some s else none },
           by rw [hless]; exact List.mem_append_right _ (List.mem_singleton.mpr rfl),
           rfl, rfl, rfl, rfl, rfl⟩

/-- C1 witness: the end-to-end scenario of the specification. -/
theorem convert_success_creates_lesson_witness :
    ∃ L,
      (convert_document_to_lesson exFs exDB 1 7 none true).2 = .success L ∧
      (∀ l ∈ exDB.lessons, l.id ≠ L) ∧
      (∃ nl, nl ∈ (convert_document_to_lesson exFs exDB 1 7 none true).1.lessons ∧
        nl.id = L ∧ nl.title = extract_title_from_filename "lecture_notes.md" ∧
        nl.content = some exText ∧
        nl.summary = (if true then some (generate_summary exText 3) else none) ∧
        nl.user_id = 7) ∧
      findDocument (convert_document_to_lesson exFs exDB 1 7 none true).1 1 =
        some { exDoc with
                 converted := true, converted_lesson_id := some L,
                 conversion_error := none } :=
  convert_success_creates_lesson exFs exDB 1 7 none true exDoc exContainer
    (extract_title_from_filename "lecture_notes.md") exText
    (generate_summary exText 3)
    (by decide) (by decide) (by decide) (by decide) (by decide)

/-! ### Claim C2 -/

/-- C2: a document with `converted = true` is rejected with
"Document has already been converted" and the database is returned
unchanged (no lesson or category created, `converted_lesson_id` intact);
a document with `converted = false` is never rejected with that message,
whatever its `conversion_error`, and a retry of an errored document
re-runs the full pipeline: with a parsable file it succeeds and overwrites
the stale error. -/
theorem convert_converted_guard (fs : String → Option (List Nat)) (db : DB)
    (did uid : Nat) (cid : Option Nat) (g : Bool) (document : Document)
    (hdoc : findDocument db did = some document) :
    (document.converted = true →
      convert_document_to_lesson fs db did uid cid g =
        (db, .failed "Document has already been converted")) ∧
    (document.converted = false →
      (convert_document_to_lesson fs db did uid cid g).2 ≠
        .failed "Document has already been converted") ∧
    (∀ e lsn t c s, document.converted = false →
      document.conversion_error = some e →
      findLessonOwned db document.lesson_id uid = some lsn →
      parse_document fs document.file_path document.original_filename =
        .ok (t, c, s) →
      ∃ L, (convert_document_to_lesson fs db did uid cid g).2 = .success L ∧
        findDocument (convert_document_to_lesson fs db did uid cid g).1 did =
          some { document with
                   converted := true, converted_lesson_id := some L,
                   conversion_error := none }) := by
  refine ⟨?_, ?_, ?_⟩
  · intro hconv
    exact convert_already_eq fs db did uid cid g document hdoc hconv
  · intro hconv heq2
    cases hown : findLessonOwned db document.lesson_id uid with
    | none =>
      rw [convert_denied_eq fs db did uid cid g document hdoc hconv hown] at heq2
      have hne : ConversionResult.failed "Access denied or lesson not found" ≠
          ConversionResult.failed "Document has already been converted" := by decide
      exact hne heq2
    | some lsn =>
      cases hparse : parse_document fs document.file_path
          document.original_filename with
      | error m =>
        rw [convert_parse_error_eq fs db did uid cid g document lsn m
          hdoc hconv hown hparse] at heq2
        injection heq2 with h
        exact string_append_ne "Failed to parse document: " m _ 'F' rfl (by decide) h
      | ok tcs =>
        obtain ⟨t, c, s⟩ := tcs
        rw [(convert_success_post fs db did uid cid g document lsn t c s
          hdoc hconv hown hparse).1] at heq2
        exact ConversionResult.noConfusion heq2
  · intro e lsn t c s hconv _ hown hparse
    obtain ⟨hres, hfind, _, _⟩ :=
      convert_success_post fs db did uid cid g document lsn t c s
        hdoc hconv hown hparse
    exact ⟨_, hres, hfind⟩

/-- C2 witness: a converted document is rejected with no state change; an
unconverted one is not; an errored one retries to success with the error
cleared. -/
theorem convert_converted_guard_witness :
    convert_document_to_lesson exFs exDBDone 1 7 none true =
      (exDBDone, .failed "Document has already been converted") ∧
    (convert_document_to_lesson exFs exDB 1 7 none true).2 ≠
      .failed "Document has already been converted" ∧
    (∃ L, (convert_document_to_lesson exFs exDBErr 1 7 none true).2 =
        .success L ∧
      findDocument (convert_document_to_lesson exFs exDBErr 1 7 none true).1 1 =
        some { exDocErr with
                 converted := true, converted_lesson_id := some L,
                 conversion_error := none }) :=
  ⟨(convert_converted_guard exFs exDBDone 1 7 none true exDocDone
      (by decide)).1 (by decide),
   (convert_converted_guard exFs exDB 1 7 none true exDoc (by decide)).2.1
      (by decide),
   (convert_converted_guard exFs exDBErr 1 7 none true exDocErr (by decide)).2.2
      "Failed to parse document: File not found: uploads/lesson_1/lecture_notes.md"
      exContainer (extract_title_from_filename "lecture_notes.md") exText
      (generate_summary exText 3)
      (by decide) (by decide) (by decide) (by decide)⟩

/-! ### Claim C3 -/

/-- C3: when the existence, not-converted and ownership checks pass but the
parser fails, the error message (prefixed "Failed to parse document: ") is
persisted into the document's `conversion_error` and the same message is
returned as `Failed`; `converted` stays false, `converted_lesson_id` is
unchanged, and no lesson or category is created; a later retry whose parse
succeeds returns `Success` and clears `conversion_error`. -/
theorem convert_parse_failure_records_error (fs : String → Option (List Nat))
    (db : DB) (did uid : Nat) (cid : Option Nat) (g : Bool)
    (document : Document) (lsn : Lesson) (m : String)
    (hdoc : findDocument db did = some document)
    (hconv : document.converted = false)
    (hown : findLessonOwned db document.lesson_id uid = some lsn)
    (hparse : parse_document fs document.file_path document.original_filename =
      .error m) :
    (convert_document_to_lesson fs db did uid cid g).2 =
      .failed ("Failed to parse document: " ++ m) ∧
    (convert_document_to_lesson fs db did uid cid g).1.lessons = db.lessons ∧
    (convert_document_to_lesson fs db did uid cid g).1.categories =
      db.categories ∧
    findDocument (convert_document_to_lesson fs db did uid cid g).1 did =
      some { document with
               conversion_error := some ("Failed to parse document: " ++ m) } ∧
    (∀ fs2 t c s,
      parse_document fs2 document.file_path document.original_filename =
        .ok (t, c, s) →
      ∃ L,
        (convert_document_to_lesson fs2
          (convert_document_to_lesson fs db did uid cid g).1 did uid cid g).2 =
          .success L ∧
        findDocument (convert_document_to_lesson fs2
          (convert_document_to_lesson fs db did uid cid g).1 did uid cid g).1 did =
          some { document with
                   converted := true, converted_lesson_id := some L,
                   conversion_error := none }) := by
  have hid : document.id = did := findDocument_id db did document hdoc
  subst hid
  have heq := convert_parse_error_eq fs db document.id uid cid g document lsn m
    hdoc hconv hown hparse
  have hless : (convert_document_to_lesson fs db document.id uid cid g).1.lessons =
      db.lessons := by
    rw [heq]
    rfl
  have hfind : findDocument
      (convert_document_to_lesson fs db document.id uid cid g).1 document.id =
      some { document with
               conversion_error := some ("Failed to parse document: " ++ m) } := by
    rw [heq]
    dsimp only
    rw [findDocument_update_err, hdoc]
    rfl
  refine ⟨by rw [heq], hless, by rw [heq]; rfl, hfind, ?_⟩
  intro fs2 t c s hp2
  have hown2 : findLessonOwned
      (convert_document_to_lesson fs db document.id uid cid g).1
      document.lesson_id uid = some lsn := by
    unfold findLessonOwned
    rw [hless]
    exact hown
  obtain ⟨hres2, hfind2, _, _⟩ :=
    convert_success_post fs2 (convert_document_to_lesson fs db document.id uid cid g).1
      document.id uid cid g
      { document with conversion_error := some ("Failed to parse document: " ++ m) }
      lsn t c s hfind hconv hown2 hp2
  exact ⟨_, hres2, hfind2⟩

/-- C3 witness: parsing fails on an empty file system (file missing), the
error is persisted; pointing the document at a valid file and retrying
succeeds and clears the error. -/
theorem convert_parse_failure_records_error_witness :
    (convert_document_to_lesson fsEmpty exDB 1 7 none true).2 =
      .failed ("Failed to parse document: " ++
        "File not found: uploads/lesson_1/lecture_notes.md") ∧
    (convert_document_to_lesson fsEmpty exDB 1 7 none true).1.lessons =
      exDB.lessons ∧
    (convert_document_to_lesson fsEmpty exDB 1 7 none true).1.categories =
      exDB.categories ∧
    findDocument (convert_document_to_lesson fsEmpty exDB 1 7 none true).1 1 =
      some { exDoc with
               conversion_error := some ("Failed to parse document: " ++
                 "File not found: uploads/lesson_1/lecture_notes.md") } ∧
    (∃ L,
      (convert_document_to_lesson exFs
        (convert_document_to_lesson fsEmpty exDB 1 7 none true).1 1 7 none true).2 =
        .success L ∧
      findDocument (convert_document_to_lesson exFs
        (convert_document_to_lesson fsEmpty exDB 1 7 none true).1 1 7 none true).1 1 =
        some { exDoc with
                 converted := true, converted_lesson_id := some L,
                 conversion_error := none }) := by
  obtain ⟨h1, h2, h3, h4, h5⟩ :=
    convert_parse_failure_records_error fsEmpty exDB 1 7 none true exDoc exContainer
      "File not found: uploads/lesson_1/lecture_notes.md"
      (by decide) (by decide) (by decide) (by decide)
  exact ⟨h1, h2, h3, h4,
    h5 exFs (extract_title_from_filename "lecture_notes.md") exText
      (generate_summary exText 3) (by decide)⟩

/-! ### Claim C4 -/

/-- C4: `convert_document_to_lesson` preserves the Document invariant
(`converted = true` implies `converted_lesson_id` set and
`conversion_error` null; a non-null `conversion_error` implies
`converted = false`) on every document row, whatever branch the call takes,
assuming the well-formedness of a relational store: document ids are
unique. -/
theorem convert_preserves_document_invariant (fs : String → Option (List Nat))
    (db : DB) (did uid : Nat) (cid : Option Nat) (g : Bool)
    (hnodup : (db.documents.map Document.id).Nodup)
    (hinv : ∀ d ∈ db.documents, documentInvariant d) :
    ∀ d ∈ (convert_document_to_lesson fs db did uid cid g).1.documents,
      documentInvariant d := by
  cases hdoc : findDocument db did with
  | none =>
    rw [convert_notfound_eq fs db did uid cid g hdoc]
    exact hinv
  | some document =>
    cases hconv : document.converted with
    | true =>
      rw [convert_already_eq fs db did uid cid g document hdoc hconv]
      exact hinv
    | false =>
      cases hown : findLessonOwned db document.lesson_id uid with
      | none =>
        rw [convert_denied_eq fs db did uid cid g document hdoc hconv hown]
        exact hinv
      | some lsn =>
        cases hparse : parse_document fs document.file_path
            document.original_filename with
        | error m =>
          rw [convert_parse_error_eq fs db did uid cid g document lsn m
            hdoc hconv hown hparse]
          intro d hd
          simp only [updateDocument, List.mem_map] at hd
          obtain ⟨d0, hd0, rfl⟩ := hd
          by_cases hidm : (d0.id == document.id) = true
          · rw [if_pos hidm]
            have hd0eq : d0 = document :=
              List.inj_on_of_nodup_map hnodup hd0
                (findDocument_mem db did document hdoc) (by simpa using hidm)
            subst hd0eq
            exact ⟨fun hc => absurd hc (by simp [hconv]), fun _ => hconv⟩
          · rw [if_neg hidm]
            exact hinv d0 hd0
        | ok tcs =>
          obtain ⟨t, c, s⟩ := tcs
          rw [convert_success_eq fs db did uid cid g document lsn t c s
            hdoc hconv hown hparse]
          intro d hd
          simp only [updateDocument, List.mem_map] at hd
          obtain ⟨d0, hd0, rfl⟩ := hd
          have hd0db : d0 ∈ db.documents :=
            (resolve_category_preserves db uid cid).1 ▸ hd0
          by_cases hidm : (d0.id == document.id) = true
          · rw [if_pos hidm]
            exact ⟨fun _ => ⟨rfl, rfl⟩, fun hne => absurd rfl hne⟩
          · rw [if_neg hidm]
            exact hinv d0 hd0db

/-- C4 witness: the updated document of the scenario conversion satisfies
the invariant. -/
theorem convert_preserves_document_invariant_witness :
    documentInvariant { exDoc with
                          converted := true, converted_lesson_id := some 2,
                          conversion_error := none } :=
  convert_preserves_document_invariant exFs exDB 1 7 none true
    (by decide) (by decide) _ (by decide)

/-! ### Claim C10 -/

/-- C10: the destination category falls back to the user's
"Imported Documents" category via lookup-or-create whenever `category_id`
is omitted (or falsy `0`) or names a category not owned by the acting
user: if the user has no such category, `get_or_create_default_category`
creates exactly one and a repeated call reuses it without creating
another; if one exists, the first one is returned and nothing is created;
and on the successful conversion path with a fallback `category_id`, the
new lesson is placed in exactly that category and the category table is
the lookup-or-create result. -/
theorem default_category_lookup_or_create (db : DB) (uid : Nat) :
    (importedCategories db uid = [] →
      ∃ cat : Category,
        get_or_create_default_category db uid =
          ({ db with
               categories := db.categories ++ [cat],
               nextCategoryId := db.nextCategoryId + 1 }, cat.id) ∧
        cat.name = "Imported Documents" ∧ cat.user_id = uid ∧
        importedCategories (get_or_create_default_category db uid).1 uid = [cat] ∧
        get_or_create_default_category (get_or_create_default_category db uid).1 uid =
          ((get_or_create_default_category db uid).1, cat.id)) ∧
    (∀ cat rest, importedCategories db uid = cat :: rest →
      get_or_create_default_category db uid = (db, cat.id)) ∧
    (∀ fs did g document lsn t c s (cid : Option Nat),
      findDocument db did = some document →
      document.converted = false →
      findLessonOwned db document.lesson_id uid = some lsn →
      parse_document fs document.file_path document.original_filename =
        .ok (t, c, s) →
      (cid = none ∨ cid = some 0 ∨
        ∃ k, cid = some k ∧ findCategoryOwned db k uid = none) →
      (convert_document_to_lesson fs db did uid cid g).1.categories =
        (get_or_create_default_category db uid).1.categories ∧
      ∃ nl, nl ∈ (convert_document_to_lesson fs db did uid cid g).1.lessons ∧
        nl.category_id = some (get_or_create_default_category db uid).2 ∧
        nl.id = (get_or_create_default_category db uid).1.nextLessonId) := by
  refine ⟨?_, ?_, ?_⟩
  · intro h
    have hfind : findImportedCategory db uid = none := by
      unfold findImportedCategory
      rw [find?_eq_head_filter]
      show (importedCategories db uid).head? = none
      rw [h]
      rfl
    have hgeo : get_or_create_default_category db uid =
        ({ db with
             categories := db.categories ++
               [{ id := db.nextCategoryId, user_id := uid,
                  name := "Imported Documents",
                  description := some "Documents automatically converted to lessons" }],
             nextCategoryId := db.nextCategoryId + 1 },
         db.nextCategoryId) := by
      unfold get_or_create_default_category
      rw [hfind]
    refine ⟨{ id := db.nextCategoryId, user_id := uid, name := "Imported Documents",
              description := some "Documents automatically converted to lessons" },
            hgeo, rfl, rfl, ?_, ?_⟩
    · rw [hgeo]
      show ((db.categories ++ [_]).filter _) = _
      rw [List.filter_append]
      have hfl : db.categories.filter
          (fun c => c.name == "Imported Documents" && c.user_id == uid) = [] := h
      rw [hfl]
      simp
    · rw [hgeo]
      have hfind2 : findImportedCategory
          { db with
              categories := db.categories ++
                [{ id := db.nextCategoryId, user_id := uid,
                   name := "Imported Documents",
                   description := some "Documents automatically converted to lessons" }],
              nextCategoryId := db.nextCategoryId + 1 } uid =
          some { id := db.nextCategoryId, user_id := uid,
                 name := "Imported Documents",
                 description := some "Documents automatically converted to lessons" } := by
        unfold findImportedCategory
        rw [find?_eq_head_filter]
        show ((db.categories ++ [_]).filter _).head? = _
        rw [List.filter_append]
        have hfl : db.categories.filter
            (fun c => c.name == "Imported Documents" && c.user_id == uid) = [] := h
        rw [hfl]
        simp
      unfold get_or_create_default_category
      rw [hfind2]
  · intro cat rest h
    have hfind : findImportedCategory db uid = some cat := by
      unfold findImportedCategory
      rw [find?_eq_head_filter]
      show (importedCategories db uid).head? = some cat
      rw [h]
      rfl
    unfold get_or_create_default_category
    rw [hfind]
  · intro fs did g document lsn t c s cid hdoc hconv hown hparse hcid
    have hres : resolve_category db uid cid = get_or_create_default_category db uid :=
      resolve_category_fallback db uid cid hcid
    obtain ⟨_, _, hless, hcats⟩ :=
      convert_success_post fs db did uid cid g document lsn t c s
        hdoc hconv hown hparse
    refine ⟨by rw [hcats, hres], ?_⟩
    exact ⟨{ id := (get_or_create_default_category db uid).1.nextLessonId,
             user_id := uid,
             category_id := some (get_or_create_default_category db uid).2,
             title := t, content := some c,
             summary := if g then some s else none },
           by rw [hless, hres]
              exact List.mem_append_right _ (List.mem_singleton.mpr rfl),
           rfl, rfl⟩

/-- C10 witness: first conversion for user 7 (no pre-existing category)
creates exactly one "Imported Documents" category and a second call reuses
it. -/
theorem default_category_lookup_or_create_witness :
    ∃ cat : Category,
      get_or_create_default_category exDB 7 =
        ({ exDB with
             categories := exDB.categories ++ [cat],
             nextCategoryId := exDB.nextCategoryId + 1 }, cat.id) ∧
      cat.name = "Imported Documents" ∧ cat.user_id = 7 ∧
      importedCategories (get_or_create_default_category exDB 7).1 7 = [cat] ∧
      get_or_create_default_category (get_or_create_default_category exDB 7).1 7 =
        ((get_or_create_default_category exDB 7).1, cat.id) :=
  (default_category_lookup_or_create exDB 7).1 (by decide)

end EduTech



